import Mathlib

/-!
# Verification of the curfil training planner (`src/curfil/train.cpp`)

This file embeds the memory-planning logic of `main` in `train.cpp`
(lines 150–210) and the trainer invocation in `train` (line 29), and
settles the frozen claims about it.

Machine-integer conventions of the embedding (LP64, as gcc on x86-64
Linux compiles this file): `size_t`/`unsigned long` are 64-bit unsigned,
`long` is 64-bit signed, `int` is 32-bit signed.  Unsigned arithmetic is
modelled in `ℕ` with an explicit `% 2^64` where a wraparound is
reachable; reinterpretation of an unsigned value as a signed one (and
back) is modelled by `toInt64` / `toUInt64` / `natToInt32`, using the
modulo semantics gcc documents (and C++20 mandates) for out-of-range
conversions to signed types.  The one floating-point expression
(line 159, `freeMemoryOnGPU * 0.66 / 1024 / 1024` computed in `double`
and truncated to `int`) is modelled as exact real arithmetic followed by
one floor, i.e. `total * 33 / 50 / 1024 / 1024` in `ℕ`; at every
concrete input used below the `double` rounding error is far too small
to move the floor.
-/

/-- Lines 150–156 of `train.cpp`: the free-memory reduction loop.
`freeMemoryOnGPU` starts at `0`; for each device reading `freeMemory`,
it is overwritten whenever the accumulator is still `0` or the reading
is strictly smaller.  The parameter is the list of per-device readings
returned by `utils::getFreeMemoryOnGPU`, in device order. -/
def freeMemoryOnGPU (readings : List ℕ) : ℕ :=
  readings.foldl (fun acc freeMemory =>
    if acc = 0 ∨ freeMemory < acc then freeMemory else acc) 0

/-- `1024lu * 1024lu`, the MB-to-bytes factor used throughout `main`. -/
def megabyte : ℕ := 1024 * 1024

/-- Line 159 of `train.cpp`: the automatic image-cache budget
`imageCacheSizeMB = freeMemoryOnGPU * 0.66 / 1024 / 1024`, with the
`double` arithmetic modelled exactly (`0.66 = 33/50`) and the final
truncation to `int` as the outer floor division. -/
def autoImageCacheSizeMB (total : ℕ) : ℕ :=
  total * 33 / 50 / 1024 / 1024

/-- Lines 158–160 of `train.cpp`: a requested cache size of `0` means
"automatic adjustment"; any other request is taken as-is. -/
def effectiveImageCacheSizeMB (requestedMB total : ℕ) : ℕ :=
  if requestedMB = 0 then autoImageCacheSizeMB total else requestedMB

/-- Lines 175–180 of `train.cpp`: the number of images kept resident.
If all images fit into the MB budget, keep them all; otherwise keep
`budgetBytes / perImageBytes` (integer division).  `count` is
`images.size()`, `sizeInMemory` is `images[0].getSizeInMemory()`. -/
def imageCacheSize (count sizeInMemory cacheMB : ℕ) : ℕ :=
  if count * sizeInMemory ≤ cacheMB * megabyte then count
  else cacheMB * megabyte / sizeInMemory

/-- Reinterpret the value of an integer expression as a 64-bit unsigned
value (C++ conversion to `unsigned long`). -/
def toUInt64 (z : ℤ) : ℤ := z % 2 ^ 64

/-- Reinterpret the value of an integer expression as a 64-bit signed
value (gcc's modulo conversion to `long`). -/
def toInt64 (z : ℤ) : ℤ :=
  if z % 2 ^ 64 < 2 ^ 63 then z % 2 ^ 64 else z % 2 ^ 64 - 2 ^ 64

/-- Convert a 64-bit unsigned value to a 32-bit signed `int` (gcc's
modulo conversion). -/
def natToInt32 (n : ℕ) : ℤ :=
  if n % 2 ^ 32 < 2 ^ 31 then (n % 2 ^ 32 : ℕ) else (n % 2 ^ 32 : ℕ) - 2 ^ 32

/-- Error message thrown at line 200 of `train.cpp`. -/
def headroomError : String :=
  "memory headroom on GPU too low. try to decrease image cache size manually"

/-- Error message thrown at line 187 of `train.cpp`. -/
def cacheTooLargeError : String := "image cache size too large"

/-- Error message thrown at line 172 of `train.cpp`. -/
def noFilesError : String := "found no files"

/-- Lines 190–201 of `train.cpp`, the batch-size computation, with exact
C++ integer semantics:

* line 191: `(freeMemoryOnGPU - imageCacheSizeMB*1024lu*1024lu) / 3` is
  `size_t` arithmetic (the subtraction cannot underflow because line 186
  already threw when `cacheBytes ≥ total`), then stored in a `long`; for
  any `total < 2^64` the quotient is below `2^63`, so the store is exact;
* line 193: `remainingMemoryOnGPU -= 10 * (2*sizeof(WeightType)*
  featureCount*numThresholds)` subtracts a `size_t` from a `long`: the
  operation happens in `unsigned long` and the result is reinterpreted
  as `long` (`toInt64`), so the remaining headroom can become negative;
* line 194: `sizePerSample = 2 * sizeof(FeatureResponseType) *
  featureCount` in `size_t`;
* line 196: `remainingMemoryOnGPU / sizePerSample` divides a `long` by a
  `size_t`: the `long` is converted to `unsigned long` first
  (`toUInt64`), the unsigned quotient is then converted to `int`
  (`natToInt32`);
* line 197: `std::min(maxSamplesPerBatch, 50000)` on `int`;
* lines 199–201: values below `1000` throw.

`w` is `sizeof(WeightType)`, `r` is `sizeof(FeatureResponseType)`. -/
def maxSamplesPerBatch (total cacheBytes fc nt w r : ℕ) : Except String ℤ :=
  let remainingMemoryOnGPU : ℕ := (total - cacheBytes) / 3
  let remaining : ℤ :=
    toInt64 ((remainingMemoryOnGPU : ℤ) - ((10 * (2 * w * fc * nt)) % 2 ^ 64 : ℕ))
  let sizePerSample : ℕ := 2 * r * fc % 2 ^ 64
  let q : ℕ := (toUInt64 remaining).toNat / sizePerSample
  let m : ℤ := min (natToInt32 q) 50000
  if m < 1000 then .error headroomError else .ok m

/-- The batch-size formula exactly as the specification states it
(§4.3, steps 1–4): `min(50000, ((totalFreeBytes - cacheBytes)/3 -
10*(2*weightSize*featureCount*numThresholds)) / (2*responseSize*
featureCount))`, over mathematical integers with floor division.  This
definition follows the spec's words and is compared against
`maxSamplesPerBatch`, which follows the source. -/
def specMaxSamplesPerBatch (total cacheBytes fc nt w r : ℕ) : ℤ :=
  min 50000 ((((total : ℤ) - cacheBytes) / 3 - 10 * (2 * w * fc * nt)) / (2 * r * fc))

/-- Lines 158–201 of `train.cpp` as one pipeline: auto cache budget,
empty-image-set check (line 171), cache clamping (lines 175–180), the
cache-too-large check (line 186) and the batch-size computation.  On
success it returns the pair handed to `TrainingConfiguration`
(line 206): the image cache size in images and the batch size. -/
def trainingPlan (total requestedMB count sizeInMemory fc nt w r : ℕ) :
    Except String (ℕ × ℤ) :=
  let mb := effectiveImageCacheSizeMB requestedMB total
  if count = 0 then .error noFilesError
  else
    let cacheImages := imageCacheSize count sizeInMemory mb
    if total ≤ mb * megabyte then .error cacheTooLargeError
    else (maxSamplesPerBatch total (mb * megabyte) fc nt w r).map
      (fun m => (cacheImages, m))

/-- Line 210 of `train.cpp`: the trainer runs only on the configuration
produced by a successful plan.  `trainer` stands for the external
`train` collaborator. -/
def runTraining {α : Type} (trainer : ℕ × ℤ → α)
    (total requestedMB count sizeInMemory fc nt w r : ℕ) : Except String α :=
  (trainingPlan total requestedMB count sizeInMemory fc nt w r).map trainer

/-- Line 66 of `train.cpp`: `bool trainTreesInParallel = true`, which is
also the `default_value` of the CLI option (line 107). -/
def trainTreesInParallelDefault : Bool := true

/-- Line 29 of `train.cpp`: the ensemble is trained with
`!trainTreesInParallel` as its sequential flag. -/
def trainSequentialFlag (trainTreesInParallel : Bool) : Bool :=
  !trainTreesInParallel

/-- C9: when `trainTreesInParallel` is not supplied it defaults to
`true`, so the trainer receives sequential flag `false`: parallel tree
training is the default. -/
theorem trainTreesInParallel_default_gives_parallel :
    trainTreesInParallelDefault = true ∧
      trainSequentialFlag trainTreesInParallelDefault = false := by
  constructor <;> rfl

/-- Auxiliary for the probe loop: once the accumulator is positive and
all remaining readings are positive, the fold computes the minimum of
the accumulator and the readings. -/
lemma freeMemory_foldl_le (l : List ℕ) : ∀ acc : ℕ, 0 < acc → (∀ y ∈ l, 0 < y) →
    (l.foldl (fun acc freeMemory =>
        if acc = 0 ∨ freeMemory < acc then freeMemory else acc) acc = acc ∨
      l.foldl (fun acc freeMemory =>
        if acc = 0 ∨ freeMemory < acc then freeMemory else acc) acc ∈ l) ∧
    l.foldl (fun acc freeMemory =>
        if acc = 0 ∨ freeMemory < acc then freeMemory else acc) acc ≤ acc ∧
    ∀ y ∈ l, l.foldl (fun acc freeMemory =>
        if acc = 0 ∨ freeMemory < acc then freeMemory else acc) acc ≤ y := by
  induction l with
  | nil => intro acc hacc _; exact ⟨Or.inl rfl, Nat.le_refl acc, by simp⟩
  | cons x xs ih =>
    intro acc hacc hpos
    have hx : 0 < x := hpos x (List.mem_cons_self x xs)
    have hxs : ∀ y ∈ xs, 0 < y := fun y hy => hpos y (List.mem_cons_of_mem x hy)
    have hacc0 : acc ≠ 0 := Nat.pos_iff_ne_zero.mp hacc
    by_cases hlt : x < acc
    · have hstep : (if acc = 0 ∨ x < acc then x else acc) = x := if_pos (Or.inr hlt)
      have h := ih x hx hxs
      simp only [List.foldl_cons, hstep]
      refine ⟨?_, ?_, ?_⟩
      · rcases h.1 with h1 | h1
        · exact Or.inr (List.mem_cons.mpr (Or.inl h1))
        · exact Or.inr (List.mem_cons_of_mem x h1)
      · exact Nat.le_trans h.2.1 (Nat.le_of_lt hlt)
      · intro y hy
        rcases List.mem_cons.mp hy with rfl | hy
        · exact h.2.1
        · exact h.2.2 y hy
    · have hstep : (if acc = 0 ∨ x < acc then x else acc) = acc := by
        apply if_neg
        intro hor
        rcases hor with h0 | h0
        · exact hacc0 h0
        · exact hlt h0
      have h := ih acc hacc hxs
      simp only [List.foldl_cons, hstep]
      refine ⟨?_, h.2.1, ?_⟩
      · rcases h.1 with h1 | h1
        · exact Or.inl h1
        · exact Or.inr (List.mem_cons_of_mem x h1)
      · intro y hy
        rcases List.mem_cons.mp hy with rfl | hy
        · exact Nat.le_trans h.2.1 (Nat.le_of_not_lt hlt)
        · exact h.2.2 y hy

/-- C2 counterexample: with readings `[0, 5]` the probe returns `5`,
not the minimum `0`: a zero reading leaves the accumulator at `0`, so
the next reading overwrites it even though it is larger. -/
theorem freeMemoryOnGPU_zero_reading_not_min :
    freeMemoryOnGPU [0, 5] = 5 ∧ (0 : ℕ) ∈ [0, 5] ∧
      ¬ freeMemoryOnGPU [0, 5] ≤ 0 := by decide

/-- C2 amended: for every non-empty list of positive per-device
readings, the probe loop of lines 150–156 returns exactly their
minimum (an element of the list that is a lower bound of it).  A
reading of `0` instead resets the accumulator, so the claim's "all
possible readings including readings of zero" does not hold. -/
theorem freeMemoryOnGPU_eq_min (l : List ℕ) (hne : l ≠ [])
    (hpos : ∀ y ∈ l, 0 < y) :
    freeMemoryOnGPU l ∈ l ∧ ∀ y ∈ l, freeMemoryOnGPU l ≤ y := by
  match l, hne with
  | x :: xs, _ =>
    have hx : 0 < x := hpos x (List.mem_cons_self x xs)
    have hxs : ∀ y ∈ xs, 0 < y := fun y hy => hpos y (List.mem_cons_of_mem x hy)
    have hstep : (if (0 : ℕ) = 0 ∨ x < 0 then x else 0) = x := if_pos (Or.inl rfl)
    have h := freeMemory_foldl_le xs x hx hxs
    unfold freeMemoryOnGPU
    simp only [List.foldl_cons, hstep]
    refine ⟨?_, ?_⟩
    · rcases h.1 with h1 | h1
      · exact List.mem_cons.mpr (Or.inl h1)
      · exact List.mem_cons_of_mem x h1
    · intro y hy
      rcases List.mem_cons.mp hy with rfl | hy
      · exact h.2.1
      · exact h.2.2 y hy

/-- Witness for `freeMemoryOnGPU_eq_min` at readings `[5, 3, 7]`. -/
theorem freeMemoryOnGPU_eq_min_witness :
    freeMemoryOnGPU [5, 3, 7] ∈ [5, 3, 7] ∧ freeMemoryOnGPU [5, 3, 7] ≤ 3 := by
  have h := freeMemoryOnGPU_eq_min [5, 3, 7] (by decide) (by decide)
  exact ⟨h.1, h.2 3 (by decide)⟩

/-- C5 counterexample: with `totalFreeBytes = 4000000000` and a
requested size of `0` ("auto"), the cache byte budget is
`2517 MB = 2639265792` bytes, not `0.66 × 4000000000 = 2640000000`
bytes: line 159 truncates the automatic budget to a whole number of
megabytes. -/
theorem autoCacheBudget_not_exact :
    effectiveImageCacheSizeMB 0 4000000000 * megabyte = 2639265792 ∧
      (100 * 2639265792 : ℕ) ≠ 66 * 4000000000 := by decide

/-- C5 amended: for every `totalFreeBytes`, the automatic cache byte
budget is `0.66 × totalFreeBytes` rounded down to a whole number of
megabytes: the budget is at most `0.66 × total` and within one megabyte
below it (stated over integers as `50 · budget ≤ 33 · total <
50 · (budget + 1 MB)`). -/
theorem autoCacheBudget_floor (total : ℕ) :
    50 * (effectiveImageCacheSizeMB 0 total * megabyte) ≤ 33 * total ∧
      33 * total < 50 * (effectiveImageCacheSizeMB 0 total * megabyte + megabyte) := by
  unfold effectiveImageCacheSizeMB autoImageCacheSizeMB megabyte
  rw [if_pos rfl]
  omega

/-- C6: for every non-empty image set of uniform positive per-image
size and every MB budget, the number of resident images chosen by
lines 175–180 equals `min(imageCount, budgetBytes / perImageBytes)`. -/
theorem imageCacheSize_eq_min (count sizeInMemory cacheMB : ℕ)
    (hcount : 0 < count) (hsize : 0 < sizeInMemory) :
    imageCacheSize count sizeInMemory cacheMB =
      min count (cacheMB * megabyte / sizeInMemory) := by
  unfold imageCacheSize
  by_cases h : count * sizeInMemory ≤ cacheMB * megabyte
  · rw [if_pos h, min_eq_left ((Nat.le_div_iff_mul_le hsize).mpr h)]
  · rw [if_neg h, min_eq_right]
    exact Nat.le_of_lt ((Nat.div_lt_iff_lt_mul hsize).mpr (Nat.lt_of_not_le h))

/-- Witness for `imageCacheSize_eq_min`: 10 images of 1000 bytes all
fit into a 1 MB budget. -/
theorem imageCacheSize_eq_min_witness : imageCacheSize 10 1000 1 = 10 := by
  rw [imageCacheSize_eq_min 10 1000 1 (by decide) (by decide)]
  decide

/-- In the sane regime — the histogram reservation fits into the
post-cache third (so line 193 leaves a nonnegative headroom) and the
unclamped quotient fits into a 32-bit `int` — the batch computation of
lines 190–201 reduces to plain natural-number arithmetic. -/
lemma maxSamplesPerBatch_sane (total cacheBytes fc nt w r : ℕ)
    (htot : total < 2 ^ 64)
    (hsps : 2 * r * fc < 2 ^ 64)
    (hres : 10 * (2 * w * fc * nt) ≤ (total - cacheBytes) / 3)
    (hq : ((total - cacheBytes) / 3 - 10 * (2 * w * fc * nt)) / (2 * r * fc) < 2 ^ 31) :
    maxSamplesPerBatch total cacheBytes fc nt w r =
      if min (((total - cacheBytes) / 3 - 10 * (2 * w * fc * nt)) / (2 * r * fc)) 50000 < 1000
      then .error headroomError
      else .ok ((min (((total - cacheBytes) / 3 - 10 * (2 * w * fc * nt)) / (2 * r * fc)) 50000 : ℕ) : ℤ) := by
  have hres64 : 10 * (2 * w * fc * nt) < 2 ^ 64 := by omega
  have hsub : ((((total - cacheBytes) / 3 : ℕ)) : ℤ) - ((10 * (2 * w * fc * nt) : ℕ) : ℤ)
      = (((total - cacheBytes) / 3 - 10 * (2 * w * fc * nt) : ℕ) : ℤ) := by
    omega
  have hq32 : ((total - cacheBytes) / 3 - 10 * (2 * w * fc * nt)) / (2 * r * fc) % 2 ^ 32
      = ((total - cacheBytes) / 3 - 10 * (2 * w * fc * nt)) / (2 * r * fc) :=
    Nat.mod_eq_of_lt (by omega)
  have h63 : ((((total - cacheBytes) / 3 - 10 * (2 * w * fc * nt)) : ℕ) : ℤ) < 2 ^ 63 := by
    omega
  have hmod : ((((total - cacheBytes) / 3 - 10 * (2 * w * fc * nt)) : ℕ) : ℤ) % 2 ^ 64
      = ((((total - cacheBytes) / 3 - 10 * (2 * w * fc * nt)) : ℕ) : ℤ) :=
    Int.emod_eq_of_lt (Int.natCast_nonneg _) (by omega)
  have hcast : ((((((total - cacheBytes) / 3 - 10 * (2 * w * fc * nt)) / (2 * r * fc) : ℕ)) : ℤ) ⊓ 50000)
      = ((((((total - cacheBytes) / 3 - 10 * (2 * w * fc * nt)) / (2 * r * fc)) ⊓ 50000 : ℕ)) : ℤ) := by
    omega
  unfold maxSamplesPerBatch toInt64 toUInt64 natToInt32
  simp only [Nat.mod_eq_of_lt hres64, Nat.mod_eq_of_lt hsps, hsub, hmod, if_pos h63,
    Int.toNat_natCast, hq32, if_pos hq, hcast]
  by_cases hlt : (((total - cacheBytes) / 3 - 10 * (2 * w * fc * nt)) / (2 * r * fc)) ⊓ 50000 < 1000
  · rw [if_pos hlt,
      if_pos (show (((((total - cacheBytes) / 3 - 10 * (2 * w * fc * nt)) / (2 * r * fc)) ⊓ 50000 : ℕ) : ℤ) < 1000
        from by exact_mod_cast hlt)]
  · rw [if_neg hlt,
      if_neg (show ¬ (((((total - cacheBytes) / 3 - 10 * (2 * w * fc * nt)) / (2 * r * fc)) ⊓ 50000 : ℕ) : ℤ) < 1000
        from by exact_mod_cast hlt)]

/-- When the cache budget fits into the free memory and the headroom is
nonnegative, the spec's formula is the corresponding natural-number
value. -/
lemma specMaxSamplesPerBatch_eq (total cacheBytes fc nt w r : ℕ)
    (hc : cacheBytes ≤ total)
    (hres : 10 * (2 * w * fc * nt) ≤ (total - cacheBytes) / 3) :
    specMaxSamplesPerBatch total cacheBytes fc nt w r =
      ((min (((total - cacheBytes) / 3 - 10 * (2 * w * fc * nt)) / (2 * r * fc)) 50000 : ℕ) : ℤ) := by
  unfold specMaxSamplesPerBatch
  rw [show (10 * (2 * (w : ℤ) * fc * nt)) = ((10 * (2 * w * fc * nt) : ℕ) : ℤ) from by push_cast; ring]
  rw [show (2 * (r : ℤ) * fc) = ((2 * r * fc : ℕ) : ℤ) from by push_cast; ring]
  rw [show ((total : ℤ) - cacheBytes) = ((total - cacheBytes : ℕ) : ℤ) from by omega]
  rw [show (((total - cacheBytes : ℕ) : ℤ)) / 3 = (((total - cacheBytes) / 3 : ℕ) : ℤ) from
    (Int.natCast_div _ 3).symm]
  rw [show (((total - cacheBytes) / 3 : ℕ) : ℤ) - ((10 * (2 * w * fc * nt) : ℕ) : ℤ)
      = (((total - cacheBytes) / 3 - 10 * (2 * w * fc * nt) : ℕ) : ℤ) from by omega]
  rw [show ((((total - cacheBytes) / 3 - 10 * (2 * w * fc * nt) : ℕ) : ℤ)) / (((2 * r * fc : ℕ)) : ℤ)
      = ((((total - cacheBytes) / 3 - 10 * (2 * w * fc * nt)) / (2 * r * fc) : ℕ) : ℤ) from
    (Int.natCast_div _ _).symm]
  omega

/-- C1 counterexample: at `totalFreeBytes = 2^20 + 3`,
`cacheBytes = 2^20`, `featureCount = 2^30`, `numThresholds = 1`,
`weightSize = responseSize = 4`, the code computes `50000` while the
spec's four-step formula yields `-10`: the negative remaining headroom
of line 193 is converted to a huge unsigned value by the mixed
`long / size_t` division of line 196, and the quotient `2^31 - 10`
truncates into the success range. -/
theorem maxSamplesPerBatch_deviates_from_spec :
    maxSamplesPerBatch 1048579 1048576 1073741824 1 4 4 = .ok 50000 ∧
      specMaxSamplesPerBatch 1048579 1048576 1073741824 1 4 4 = -10 := by
  constructor
  · rfl
  · decide

/-- C1 amended: whenever the histogram reservation fits into the
post-cache third of free memory and the resulting quotient fits into a
32-bit `int`, lines 190–201 compute `maxSamplesPerBatch` exactly as
`min(50000, ((totalFreeBytes - cacheBytes)/3 -
10*(2*weightSize*featureCount*numThresholds)) /
(2*responseSize*featureCount))` with integer division, failing when
that value is below `1000`.  Outside this regime the C++
signed/unsigned conversions deviate from the formula. -/
theorem maxSamplesPerBatch_matches_spec (total cacheBytes fc nt w r : ℕ)
    (htot : total < 2 ^ 64) (hc : cacheBytes ≤ total)
    (hsps : 2 * r * fc < 2 ^ 64)
    (hres : 10 * (2 * w * fc * nt) ≤ (total - cacheBytes) / 3)
    (hq : ((total - cacheBytes) / 3 - 10 * (2 * w * fc * nt)) / (2 * r * fc) < 2 ^ 31) :
    maxSamplesPerBatch total cacheBytes fc nt w r =
      if specMaxSamplesPerBatch total cacheBytes fc nt w r < 1000
      then .error headroomError
      else .ok (specMaxSamplesPerBatch total cacheBytes fc nt w r) := by
  rw [maxSamplesPerBatch_sane total cacheBytes fc nt w r htot hsps hres hq,
      specMaxSamplesPerBatch_eq total cacheBytes fc nt w r hc hres]
  by_cases hlt : min (((total - cacheBytes) / 3 - 10 * (2 * w * fc * nt)) / (2 * r * fc)) 50000 < 1000
  · rw [if_pos hlt, if_pos (show ((min (((total - cacheBytes) / 3 - 10 * (2 * w * fc * nt)) / (2 * r * fc)) 50000 : ℕ) : ℤ) < 1000 from by exact_mod_cast hlt)]
  · rw [if_neg hlt, if_neg (show ¬ ((min (((total - cacheBytes) / 3 - 10 * (2 * w * fc * nt)) / (2 * r * fc)) 50000 : ℕ) : ℤ) < 1000 from by exact_mod_cast hlt)]

/-- Witness for `maxSamplesPerBatch_matches_spec` at
`total = 4000000`, `cacheBytes = 2^20`, `featureCount =
numThresholds = 10`, element sizes `4`: both the code and the formula
give `12197`. -/
theorem maxSamplesPerBatch_matches_spec_witness :
    maxSamplesPerBatch 4000000 1048576 10 10 4 4 =
      .ok (specMaxSamplesPerBatch 4000000 1048576 10 10 4 4) ∧
    specMaxSamplesPerBatch 4000000 1048576 10 10 4 4 = 12197 := by
  constructor
  · rw [maxSamplesPerBatch_matches_spec 4000000 1048576 10 10 4 4
      (by decide) (by decide) (by decide) (by decide) (by decide)]
    rw [if_neg (by decide)]
  · decide

/-- C3: with `totalFreeBytes = 2^20 + 3`, `cacheBytes = 2^20`,
`featureCount = 2^30`, `numThresholds = 1`, element sizes `4`, the
remaining headroom after the histogram reservation is negative
(`1 - 85899345920`), so the spec mandates the `ResourceError`; the code
instead accepts the batch with `50000` samples, because the negative
`long` is reinterpreted as a huge `unsigned long` by the division of
line 196 — contradicting the code's own "very defensive estimate to
avoid out of memory errors" intent (line 190). -/
theorem negative_headroom_not_rejected :
    maxSamplesPerBatch 1048579 1048576 1073741824 1 4 4 = .ok 50000 ∧
      specMaxSamplesPerBatch 1048579 1048576 1073741824 1 4 4 < 1000 ∧
      (((1048579 - 1048576 : ℕ) / 3 : ℤ) - 10 * (2 * 4 * 1073741824 * 1)) < 0 := by
  refine ⟨rfl, by decide, by decide⟩

/-- A successful batch computation in the sane regime returns exactly
the clamped quotient. -/
lemma maxSamplesPerBatch_ok_value (total cacheBytes fc nt w r : ℕ) (v : ℤ)
    (htot : total < 2 ^ 64)
    (hsps : 2 * r * fc < 2 ^ 64)
    (hres : 10 * (2 * w * fc * nt) ≤ (total - cacheBytes) / 3)
    (hq : ((total - cacheBytes) / 3 - 10 * (2 * w * fc * nt)) / (2 * r * fc) < 2 ^ 31)
    (h : maxSamplesPerBatch total cacheBytes fc nt w r = .ok v) :
    v = ((min (((total - cacheBytes) / 3 - 10 * (2 * w * fc * nt)) / (2 * r * fc)) 50000 : ℕ) : ℤ) := by
  rw [maxSamplesPerBatch_sane total cacheBytes fc nt w r htot hsps hres hq] at h
  by_cases hlt : min (((total - cacheBytes) / 3 - 10 * (2 * w * fc * nt)) / (2 * r * fc)) 50000 < 1000
  · rw [if_pos hlt] at h
    exact absurd h (by simp)
  · rw [if_neg hlt] at h
    exact (Except.ok.injEq _ _).mp h.symm

/-- C7 counterexample: holding `total = 1096816`, `cacheBytes = 2^20`,
`numThresholds = 1` and element sizes `4` fixed, raising `featureCount`
from `1` to `2^30` raises the planner's output from `2000` to `50000`:
past the point where the headroom goes negative, the unsigned
wraparound of line 196 puts the truncated quotient back into the
success range, so the output is not monotonically non-increasing in
`featureCount`. -/
theorem maxSamplesPerBatch_not_monotone :
    maxSamplesPerBatch 1096816 1048576 1 1 4 4 = .ok 2000 ∧
      maxSamplesPerBatch 1096816 1048576 1073741824 1 4 4 = .ok 50000 ∧
      (1 : ℕ) < 1073741824 ∧ ¬ ((50000 : ℤ) ≤ 2000) := by
  refine ⟨rfl, rfl, by decide, by decide⟩

/-- C7 amended: within the sane regime — the histogram reservation at
the larger parameter still fits into the post-cache third, and the
quotient at the smaller parameter fits into a 32-bit `int` — the
planner's successful output is monotonically non-increasing in
`featureCount` (first conjunct) and in `numThresholds` (second
conjunct), all other inputs held fixed.  Outside this regime the
wraparound of line 196 can make the output increase. -/
theorem maxSamplesPerBatch_monotone (total cacheBytes w r fc fc' nt nt' : ℕ) (v₁ v₂ u₁ u₂ : ℤ)
    (htot : total < 2 ^ 64)
    (hfc : fc ≤ fc') (hnt : nt ≤ nt')
    (hsps' : 2 * r * fc' < 2 ^ 64)
    (hres1 : 10 * (2 * w * fc' * nt) ≤ (total - cacheBytes) / 3)
    (hres2 : 10 * (2 * w * fc * nt') ≤ (total - cacheBytes) / 3)
    (hfcpos : 0 < fc) (hrpos : 0 < r)
    (hq : ((total - cacheBytes) / 3 - 10 * (2 * w * fc * nt)) / (2 * r * fc) < 2 ^ 31) :
    (maxSamplesPerBatch total cacheBytes fc nt w r = .ok v₁ →
      maxSamplesPerBatch total cacheBytes fc' nt w r = .ok v₂ → v₂ ≤ v₁) ∧
    (maxSamplesPerBatch total cacheBytes fc nt w r = .ok u₁ →
      maxSamplesPerBatch total cacheBytes fc nt' w r = .ok u₂ → u₂ ≤ u₁) := by
  have hressmall : 10 * (2 * w * fc * nt) ≤ (total - cacheBytes) / 3 := by
    refine le_trans ?_ hres1
    gcongr
  have hsps : 2 * r * fc < 2 ^ 64 := by
    have : 2 * r * fc ≤ 2 * r * fc' := by gcongr
    omega
  have hq1 : ((total - cacheBytes) / 3 - 10 * (2 * w * fc' * nt)) / (2 * r * fc')
      ≤ ((total - cacheBytes) / 3 - 10 * (2 * w * fc * nt)) / (2 * r * fc) := by
    apply Nat.div_le_div
    · apply Nat.sub_le_sub_left
      gcongr
    · gcongr
    · positivity
  have hq2 : ((total - cacheBytes) / 3 - 10 * (2 * w * fc * nt')) / (2 * r * fc)
      ≤ ((total - cacheBytes) / 3 - 10 * (2 * w * fc * nt)) / (2 * r * fc) := by
    apply Nat.div_le_div_right
    apply Nat.sub_le_sub_left
    gcongr
  constructor
  · intro h1 h2
    rw [maxSamplesPerBatch_ok_value total cacheBytes fc nt w r v₁ htot hsps hressmall hq h1,
        maxSamplesPerBatch_ok_value total cacheBytes fc' nt w r v₂ htot hsps' hres1
          (lt_of_le_of_lt hq1 hq) h2]
    have := min_le_min hq1 (le_refl 50000)
    exact_mod_cast this
  · intro h1 h2
    rw [maxSamplesPerBatch_ok_value total cacheBytes fc nt w r u₁ htot hsps hressmall hq h1,
        maxSamplesPerBatch_ok_value total cacheBytes fc nt' w r u₂ htot hsps hres2
          (lt_of_le_of_lt hq2 hq) h2]
    have := min_le_min hq2 (le_refl 50000)
    exact_mod_cast this

/-- Witness for `maxSamplesPerBatch_monotone`: at `total = 4000000`,
`cacheBytes = 2^20`, element sizes `4`, doubling `featureCount`
(`10 → 20`) lowers the output `12197 → 6048`, and doubling
`numThresholds` (`10 → 20`) lowers it `12197 → 12097`. -/
theorem maxSamplesPerBatch_monotone_witness :
    maxSamplesPerBatch 4000000 1048576 20 10 4 4 = .ok 6048 ∧
      ((6048 : ℤ) ≤ 12197 ∧ (12097 : ℤ) ≤ 12197) := by
  have h := maxSamplesPerBatch_monotone 4000000 1048576 4 4 10 20 10 20 12197 6048 12197 12097
    (by decide) (by decide) (by decide) (by decide) (by decide) (by decide)
    (by decide) (by decide) (by decide)
  exact ⟨rfl, h.1 rfl rfl, h.2 rfl rfl⟩

/-- The batch computation fails only with the headroom message. -/
lemma maxSamplesPerBatch_error_eq (total cacheBytes fc nt w r : ℕ) (e : String)
    (h : maxSamplesPerBatch total cacheBytes fc nt w r = .error e) : e = headroomError := by
  simp only [maxSamplesPerBatch] at h
  split at h
  · exact ((Except.error.injEq _ _).mp h).symm
  · cases h

/-- The pipeline of lines 158–201 raises "image cache size too large"
exactly when the effective MB budget, in bytes, reaches the free
memory. -/
lemma trainingPlan_cacheError_iff (total requestedMB count sizeInMemory fc nt w r : ℕ)
    (hcount : 0 < count) :
    trainingPlan total requestedMB count sizeInMemory fc nt w r = .error cacheTooLargeError ↔
      total ≤ effectiveImageCacheSizeMB requestedMB total * megabyte := by
  unfold trainingPlan
  rw [if_neg (Nat.pos_iff_ne_zero.mp hcount)]
  by_cases h : total ≤ effectiveImageCacheSizeMB requestedMB total * megabyte
  · rw [if_pos h]
    exact ⟨fun _ => h, fun _ => rfl⟩
  · rw [if_neg h]
    constructor
    · intro herr
      rcases hb : maxSamplesPerBatch total (effectiveImageCacheSizeMB requestedMB total * megabyte) fc nt w r with e | m
      · rw [hb] at herr
        simp only [Except.map] at herr
        have he := (Except.error.injEq _ _).mp herr
        have := maxSamplesPerBatch_error_eq _ _ _ _ _ _ _ hb
        rw [this] at he
        exact absurd he (by decide)
      · rw [hb] at herr
        simp only [Except.map] at herr
        cases herr
    · intro hle
      exact absurd hle h

/-- C4: the cache planner fails with "image cache size too large" if
and only if the requested (or auto-computed) cache budget in bytes
reaches `totalFreeBytes` (line 186); consequently every successful run
hands a cache byte budget strictly below `totalFreeBytes` downstream. -/
theorem trainingPlan_cache_validation (total requestedMB count sizeInMemory fc nt w r : ℕ)
    (hcount : 0 < count) :
    (trainingPlan total requestedMB count sizeInMemory fc nt w r = .error cacheTooLargeError ↔
      total ≤ effectiveImageCacheSizeMB requestedMB total * megabyte) ∧
    ∀ cfg : ℕ × ℤ, trainingPlan total requestedMB count sizeInMemory fc nt w r = .ok cfg →
      effectiveImageCacheSizeMB requestedMB total * megabyte < total := by
  constructor
  · exact trainingPlan_cacheError_iff total requestedMB count sizeInMemory fc nt w r hcount
  · intro cfg hok
    by_contra hnot
    have hle : total ≤ effectiveImageCacheSizeMB requestedMB total * megabyte := by omega
    have := (trainingPlan_cacheError_iff total requestedMB count sizeInMemory fc nt w r hcount).mpr hle
    rw [this] at hok
    cases hok

/-- Witness for `trainingPlan_cache_validation`: a requested budget of
1 MB against exactly 1 MB of free memory aborts. -/
theorem trainingPlan_cache_validation_witness :
    trainingPlan 1048576 1 5 100 1 1 4 4 = .error cacheTooLargeError :=
  (trainingPlan_cache_validation 1048576 1 5 100 1 1 4 4 (by decide)).1.mpr (by decide)

/-- C8: whenever the requested cache size in MB is at least
`totalFreeBytes / 2^20` (equivalently, `totalFreeBytes ≤
requestedMB * 2^20` over the reals), the run aborts with the
"image cache size too large" `ResourceError` and the trainer
collaborator is never invoked: the result is this error for every
possible `trainer` function. -/
theorem cacheError_before_training {α : Type} (trainer : ℕ × ℤ → α)
    (total requestedMB count sizeInMemory fc nt w r : ℕ)
    (hreq : 0 < requestedMB) (hcount : 0 < count)
    (hge : total ≤ requestedMB * megabyte) :
    runTraining trainer total requestedMB count sizeInMemory fc nt w r =
      .error cacheTooLargeError := by
  unfold runTraining
  have heff : effectiveImageCacheSizeMB requestedMB total = requestedMB :=
    if_neg (Nat.pos_iff_ne_zero.mp hreq)
  have hplan : trainingPlan total requestedMB count sizeInMemory fc nt w r =
      .error cacheTooLargeError :=
    (trainingPlan_cacheError_iff total requestedMB count sizeInMemory fc nt w r hcount).mpr
      (by rw [heff]; exact hge)
  rw [hplan]
  rfl

/-- Witness for `cacheError_before_training` with a concrete trainer
function. -/
theorem cacheError_before_training_witness :
    runTraining (fun _ => (0 : ℕ)) 1048576 1 5 100 1 1 4 4 = .error cacheTooLargeError :=
  cacheError_before_training (fun _ => (0 : ℕ)) 1048576 1 5 100 1 1 4 4
    (by decide) (by decide) (by decide)

/-- C10: the cache-too-large check of line 186 validates only the MB
budget against `totalFreeBytes`: the run aborts if and only if
`requestedMB * 2^20 ≥ totalFreeBytes`, and this outcome is unchanged
under any replacement of the image count and per-image size — the
bytes actually consumed by the clamped resident cache are never
validated. -/
theorem cacheCheck_ignores_consumed_bytes (total mb count sizeInMemory count' sizeInMemory' fc nt w r : ℕ)
    (hmb : 0 < mb) (hcount : 0 < count) (hcount' : 0 < count') :
    (trainingPlan total mb count sizeInMemory fc nt w r = .error cacheTooLargeError ↔
      total ≤ mb * megabyte) ∧
    (trainingPlan total mb count sizeInMemory fc nt w r = .error cacheTooLargeError ↔
      trainingPlan total mb count' sizeInMemory' fc nt w r = .error cacheTooLargeError) := by
  have heff : effectiveImageCacheSizeMB mb total = mb := if_neg (Nat.pos_iff_ne_zero.mp hmb)
  have h1 := trainingPlan_cacheError_iff total mb count sizeInMemory fc nt w r hcount
  have h2 := trainingPlan_cacheError_iff total mb count' sizeInMemory' fc nt w r hcount'
  rw [heff] at h1 h2
  exact ⟨h1, h1.trans h2.symm⟩

/-- Witness for `cacheCheck_ignores_consumed_bytes`: with 1 MB free and
1 MB requested, the run aborts whether the image set needs 500 bytes or
1.4 GB. -/
theorem cacheCheck_ignores_consumed_bytes_witness :
    (trainingPlan 1048576 1 5 100 1 1 4 4 = .error cacheTooLargeError ↔
      (1048576 : ℕ) ≤ 1 * megabyte) ∧
    (trainingPlan 1048576 1 5 100 1 1 4 4 = .error cacheTooLargeError ↔
      trainingPlan 1048576 1 70000 20000 1 1 4 4 = .error cacheTooLargeError) :=
  cacheCheck_ignores_consumed_bytes 1048576 1 5 100 70000 20000 1 1 4 4
    (by decide) (by decide) (by decide)
